import Mathlib

/-!
# Verification of the HA→163 gateway discovery / collection engine

Shallow embedding of the two source files:

* `ha_to_163/device_discovery/ha_discovery.py` — entity discovery and
  property matching (`PROPERTY_MAPPING`, `_match_environment_entity`,
  `_match_electric_entity`, `_process_single_entity`,
  `_match_entities_to_devices`, `discover`);
* `ha_to_163/main.py` — value collection and conversion
  (`_get_entity_value`, `_collect_device_data`, `_discover_devices`).

Strings are modelled as Lean `String`; the Python string primitives the code
uses (`in`, `startswith`, `replace`, `strip`, `lower`, `split(".")[0]`) are
implemented below on `List Char`.  Numeric state values are modelled as `ℚ`
(the decimal texts the code parses are exact decimals) and Python's `round`
as rounding of the scaled rational to the nearest integer.
-/

namespace Gateway

/-- Contiguous-sublist test on `List Char`: Python's `needle in hay`. -/
def isSubL (needle : List Char) : List Char → Bool
  | [] => needle.isEmpty
  | h :: t => needle.isPrefixOf (h :: t) || isSubL needle t

/-- Python `needle in hay` on strings. -/
def sContains (hay needle : String) : Bool :=
  isSubL needle.toList hay.toList

/-- Python `s.startswith(pat)`. -/
def sStarts (s pat : String) : Bool :=
  pat.toList.isPrefixOf s.toList

/-- Python `s.startswith((p1, p2, ...))`. -/
def sStartsAny (s : String) (pats : List String) : Bool :=
  pats.any (fun p => sStarts s p)

/-- Fuelled worker for `removeAllL`; the fuel is structurally decreasing
and, at `s.length`, never runs out (each step drops at least one
character). -/
def removeAllGo : Nat → List Char → List Char → List Char
  | 0, s, _ => s
  | _ + 1, [], _ => []
  | fuel + 1, c :: t, pat =>
    if !pat.isEmpty && pat.isPrefixOf (c :: t) then
      removeAllGo fuel ((c :: t).drop pat.length) pat
    else
      c :: removeAllGo fuel t pat

/-- Python `s.replace(pat, "")` on `List Char`: remove every (leftmost,
non-overlapping) occurrence of `pat`; an empty pattern leaves `s` unchanged
(as `str.replace("", "")` does). -/
def removeAllL (s : List Char) (pat : List Char) : List Char :=
  removeAllGo s.length s pat

/-- Python `s.replace(pat, "")` on strings. -/
def sRemoveAll (s pat : String) : String :=
  ⟨removeAllL s.toList pat.toList⟩

/-- Python `s.strip("_")`: drop underscores from both ends. -/
def sStripUnder (s : String) : String :=
  ⟨(((s.toList.dropWhile (fun c => c == '_')).reverse.dropWhile
      (fun c => c == '_'))).reverse⟩

/-- Python `s.lower()` (ASCII is all the source ever feeds it). -/
def sLower (s : String) : String :=
  ⟨s.toList.map Char.toLower⟩

/-- Python `entity_id.split(".")[0]`: the domain part of an entity id. -/
def domainOf (eid : String) : String :=
  ⟨eid.toList.takeWhile (fun c => !(c == '.'))⟩

/-- First-match association-list lookup (Python `d[k]` for the literal
`PROPERTY_MAPPING` dict, whose keys are pairwise distinct). -/
def lookupA (l : List (String × String)) (k : String) : Option String :=
  match l with
  | [] => none
  | (k0, v0) :: t => if k0 == k then some v0 else lookupA t k

/-- Strict left-preferring alternative on `Option` (strict `orElse`). -/
def optOr (a b : Option α) : Option α :=
  match a with
  | some x => some x
  | none => b

/-! ## PROPERTY_MAPPING (ha_discovery.py lines 11–82)

The Python dict literal, in its source insertion order (that order is what
the keyword loops iterate in).  The keys of the literal are pairwise
distinct, so the ordered association list has the same lookup semantics. -/

def PROPERTY_MAPPING : List (String × String) :=
  [ ("temperature", "temp"),
    ("temp", "temp"),
    ("temp_c", "temp"),
    ("temp_f", "temp"),
    ("temperature_p", "temp"),
    ("temp_p", "temp"),
    ("humidity", "hum"),
    ("hum", "hum"),
    ("humidity_percent", "hum"),
    ("relative_humidity", "relative_hum"),
    ("hum_p", "hum"),
    ("battery", "battery"),
    ("batt", "battery"),
    ("battery_level", "battery"),
    ("battery_percent", "battery"),
    ("batt_p", "battery"),
    ("smoke_concentration", "smoke"),
    ("smoke", "smoke"),
    ("smoke_level", "smoke"),
    ("carbon_dioxide", "co2"),
    ("co2", "co2"),
    ("carbon_dioxide_concentration", "co2"),
    ("pm25", "pm2_5"),
    ("pm2.5", "pm2_5"),
    ("particulate_matter_2_5", "pm2_5"),
    ("pm10", "pm10"),
    ("particulate_matter_10", "pm10"),
    ("tvoc", "tvoc"),
    ("total_volatile_organic_compounds", "tvoc"),
    ("noise", "noise"),
    ("sound_level", "noise"),
    ("noise_decibel", "noise"),
    ("door", "switch"),
    ("door_state", "switch"),
    ("contact", "switch"),
    ("state", "state"),
    ("on", "state"),
    ("off", "state"),
    ("electric_power", "active_power"),
    ("power", "active_power"),
    ("active_power", "active_power"),
    ("elec_power", "active_power"),
    ("power_w", "active_power"),
    ("power_consumption", "energy"),
    ("energy", "energy"),
    ("kwh", "energy"),
    ("electricity_used", "energy"),
    ("energy_kwh", "energy"),
    ("current", "current"),
    ("electric_current", "current"),
    ("current_a", "current"),
    ("voltage", "voltage"),
    ("voltage_v", "voltage"),
    ("frequency", "frequency"),
    ("frequency_hz", "frequency") ]

/-! ## Data model -/

/-- A Home-Assistant entity as the matcher sees it.  `deviceClass` and
`friendlyName` model `attributes.get("device_class", "")` and
`attributes.get("friendly_name", "")`: an absent attribute is the empty
string, exactly the default the source supplies. -/
structure RawEntity where
  entityId : String
  deviceClass : String
  friendlyName : String
deriving DecidableEq, Repr

/-- One `sub_devices` configuration entry (already `enabled`-filtered and
with `ha_entity_prefix` whitespace-trimmed, as `HADiscovery.__init__` /
`_match_entities_to_devices` do).  `supported` models the
`supportedProperties` set the spec describes for the device; the source
matcher never reads any such key of the config dict, which the embedding
reflects by carrying the field and never consulting it. -/
structure DeviceCfg where
  id : String
  type : String
  haEntityPfx : String
  supported : List String
deriving DecidableEq, Repr

/-- A device's match container (`matched_devices[device_id]`): its config
and the `entities` property→entity-id map, as an insertion-ordered
association list (Python dict semantics for the guarded inserts used). -/
structure DeviceData where
  cfg : DeviceCfg
  entities : List (String × String)
deriving DecidableEq, Repr

/-- Source field `self.environment_types` (ha_discovery.py line 100). -/
def environmentTypes : List String := ["sensor"]

/-- Source field `self.electric_device_types` (ha_discovery.py line 99). -/
def electricTypes : List String := ["switch", "socket", "breaker"]

/-! ## Property resolution (`_match_environment_entity`, lines 275–316, and
`_match_electric_entity`, lines 318–364) -/

/-- Source expression `entity_id.replace(ha_prefix, "").strip("_")` (line 293). -/
def entityCoreOf (pfx eid : String) : String :=
  sStripUnder (sRemoveAll eid pfx)

/-- Priority-2 keyword loop of `_match_environment_entity` (lines 302–305):
first `PROPERTY_MAPPING` entry, in dict order, whose key contains or is
contained in the entity core. -/
def findEnvKeyword (core : String) : Option String :=
  (PROPERTY_MAPPING.find? (fun kv =>
    sContains core kv.1 || sContains kv.1 core)).map (fun kv => kv.2)

/-- Priority-3 keyword loop of `_match_environment_entity` (lines 308–311):
first entry whose key appears in the lower-cased friendly name. -/
def findNameKeyword (fn : String) : Option String :=
  (PROPERTY_MAPPING.find? (fun kv => sContains fn kv.1)).map (fun kv => kv.2)

/-- The `property_name` computation of `_match_environment_entity`
(lines 296–311).  Note the source's `elif` chain: the friendly-name loop is
reached only when the entity core is the *empty* string, not merely when the
core loop found nothing. -/
def resolveEnvProp (dc fn core : String) : Option String :=
  if (lookupA PROPERTY_MAPPING dc).isSome then lookupA PROPERTY_MAPPING dc
  else if core != "" then findEnvKeyword core
  else if fn != "" then findNameKeyword fn
  else none

/-- Resolution outcome of `_match_environment_entity` for one (entity,
device) pair, including the prefix guard of line 286: `none` both when the
raw prefix is not a substring of the full entity id and when no priority
rule fires. -/
def envResolvedProp (cfg : DeviceCfg) (e : RawEntity) : Option String :=
  if sContains e.entityId cfg.haEntityPfx then
    resolveEnvProp (sLower e.deviceClass) (sLower e.friendlyName)
      (entityCoreOf cfg.haEntityPfx e.entityId)
  else none

/-- The electric-parameter allowlist of lines 351 and 357. -/
def electricProps : List String :=
  ["active_power", "energy", "current", "voltage", "frequency"]

/-- Priority-2 loop of `_match_electric_entity` (lines 350–353): keyword in
the lower-cased *full entity id* and target property electric. -/
def findElecIdKeyword (eidLower : String) : Option String :=
  (PROPERTY_MAPPING.find? (fun kv =>
    sContains eidLower kv.1 && electricProps.contains kv.2)).map (fun kv => kv.2)

/-- Priority-3 loop of `_match_electric_entity` (lines 356–359). -/
def findElecNameKeyword (fn : String) : Option String :=
  (PROPERTY_MAPPING.find? (fun kv =>
    sContains fn kv.1 && electricProps.contains kv.2)).map (fun kv => kv.2)

/-- The `property_name` computation of `_match_electric_entity`
(lines 338–359): a `switch.` entity is fixed to `"state"`; a `sensor.`
entity runs device-class, then id-keyword, then (only if both failed and the
friendly name is nonempty) friendly-name keyword resolution. -/
def resolveElecProp (eid dc fn : String) : Option String :=
  if domainOf eid == "switch" then some "state"
  else if domainOf eid == "sensor" then
    if (lookupA PROPERTY_MAPPING dc).isSome then lookupA PROPERTY_MAPPING dc
    else
      match findElecIdKeyword (sLower eid) with
      | some p => some p
      | none => if fn != "" then findElecNameKeyword fn else none
  else none

/-- Resolution outcome of `_match_electric_entity` for one pair, including
the prefix guard of line 329. -/
def elecResolvedProp (cfg : DeviceCfg) (e : RawEntity) : Option String :=
  if sContains e.entityId cfg.haEntityPfx then
    resolveElecProp e.entityId (sLower e.deviceClass) (sLower e.friendlyName)
  else none

/-- The save step shared by both matchers (lines 313–315 / 361–363):
`if property_name and property_name not in device_data["entities"]:
device_data["entities"][property_name] = entity_id`. -/
def saveMatch (dd : DeviceData) (res : Option String) (eid : String) :
    DeviceData :=
  match res with
  | some p =>
    if (lookupA dd.entities p).isSome then dd
    else { dd with entities := dd.entities ++ [(p, eid)] }
  | none => dd

/-- Source method `_match_environment_entity` (lines 275–316). -/
def matchEnvironmentEntity (e : RawEntity) (dd : DeviceData) : DeviceData :=
  saveMatch dd (envResolvedProp dd.cfg e) e.entityId

/-- Source method `_match_electric_entity` (lines 318–364). -/
def matchElectricEntity (e : RawEntity) (dd : DeviceData) : DeviceData :=
  saveMatch dd (elecResolvedProp dd.cfg e) e.entityId

/-! ## One entity against the whole table (`_process_single_entity`,
lines 252–273) -/

/-- Source method `_process_single_entity`: the entity is offered to every
environment-type device when its id starts with `sensor.`/`binary_sensor.`,
then to every electric-type device when it starts with `switch.`/`sensor.`;
an empty entity id is skipped. -/
def processSingleEntity (e : RawEntity) (tbl : List (String × DeviceData)) :
    List (String × DeviceData) :=
  if e.entityId == "" then tbl
  else
    let tbl1 :=
      if sStartsAny e.entityId ["sensor.", "binary_sensor."] then
        tbl.map (fun kv =>
          if environmentTypes.contains kv.2.cfg.type then
            (kv.1, matchEnvironmentEntity e kv.2)
          else kv)
      else tbl
    if sStartsAny e.entityId ["switch.", "sensor."] then
      tbl1.map (fun kv =>
        if electricTypes.contains kv.2.cfg.type then
          (kv.1, matchElectricEntity e kv.2)
        else kv)
    else tbl1

/-- The effect of `_process_single_entity` on a single device's container:
the same guards and matcher calls, restricted to one table entry. -/
def stepDevice (e : RawEntity) (dd : DeviceData) : DeviceData :=
  if e.entityId == "" then dd
  else
    let dd1 :=
      if sStartsAny e.entityId ["sensor.", "binary_sensor."] &&
          environmentTypes.contains dd.cfg.type then
        matchEnvironmentEntity e dd
      else dd
    if sStartsAny e.entityId ["switch.", "sensor."] &&
        electricTypes.contains dd1.cfg.type then
      matchElectricEntity e dd1
    else dd1

/-- The property (if any) that one entity resolves to for one device under
the full `_process_single_entity` guards.  Because the environment and
electric type sets are disjoint, at most one matcher ever fires per
device. -/
def stepResolvedProp (cfg : DeviceCfg) (e : RawEntity) : Option String :=
  if e.entityId == "" then none
  else if sStartsAny e.entityId ["sensor.", "binary_sensor."] &&
      environmentTypes.contains cfg.type then
    envResolvedProp cfg e
  else if sStartsAny e.entityId ["switch.", "sensor."] &&
      electricTypes.contains cfg.type then
    elecResolvedProp cfg e
  else none

/-! ## Whole pass (`_match_entities_to_devices`, lines 211–250, and
`discover`, lines 184–209) -/

/-- Python dict assignment `tbl[k] = v`: replace in place or append. -/
def assocSetD (tbl : List (String × DeviceData)) (k : String)
    (v : DeviceData) : List (String × DeviceData) :=
  match tbl with
  | [] => [(k, v)]
  | (k0, v0) :: t => if k0 == k then (k, v) :: t else (k0, v0) :: assocSetD t k v

/-- Table initialisation of `_match_entities_to_devices` (lines 217–230):
one empty container per configured device, keyed by id. -/
def initTable (devs : List DeviceCfg) : List (String × DeviceData) :=
  devs.foldl (fun tbl d => assocSetD tbl d.id ⟨d, []⟩) []

/-- Source method `_match_entities_to_devices`: the per-entity threads are started in
entity-list order and each only performs the guarded-insert of
`_process_single_entity`; the embedding is the sequential evaluation in that
order. -/
def matchEntitiesToDevices (devs : List DeviceCfg) (ents : List RawEntity) :
    List (String × DeviceData) :=
  ents.foldl (fun tbl e => processSingleEntity e tbl) (initTable devs)

/-- Outcome of `load_ha_entities` (lines 105–159): either the fetched
entity list, or failure returning `False` (retries exhausted, or an HTTP
error aborting immediately). -/
inductive FetchResult where
  | ok (ents : List RawEntity)
  | failed
deriving DecidableEq, Repr

/-- Source method `HADiscovery.discover` (lines 184–209): an empty dict on fetch failure,
an empty dict when the 30-second match deadline passes (`timedOut`), and the
completed match table otherwise. -/
def discover (devs : List DeviceCfg) (fetch : FetchResult)
    (timedOut : Bool) : List (String × DeviceData) :=
  match fetch with
  | .failed => []
  | .ok ents => if timedOut then [] else matchEntitiesToDevices devs ents

/-- Outcome of the `try` body of a Python method: a value, or an exception
transferring control to the enclosing `except` handler. -/
inductive PyResult (α : Type) where
  | ok (a : α)
  | exc
deriving DecidableEq, Repr

/-- Number of required (default-free) parameters of `HADiscovery.__init__`
after `self`: `config`, `ha_headers`, `ha_session` (ha_discovery.py
line 88; `ha_session` has no default). -/
def haDiscoveryInitParams : Nat := 3

/-- Number of arguments the call site passes to the constructor:
`self.config`, `self.ha_headers` (main.py lines 87–90). -/
def haDiscoveryCallArgs : Nat := 2

/-- The `try` body of `_discover_devices` (main.py lines 86–104).  Its
first statement calls the `HADiscovery` constructor; per Python call
semantics the call raises `TypeError` unless the supplied arguments cover
the required parameters, and only then would `discovery.discover()` run and
its table be produced for installation. -/
def tryDiscoverBody (devs : List DeviceCfg) (fetch : FetchResult)
    (timedOut : Bool) : PyResult (List (String × DeviceData)) :=
  if haDiscoveryCallArgs = haDiscoveryInitParams then
    .ok (discover devs fetch timedOut)
  else
    .exc

/-- The gateway state relevant to discovery: `self.matched_devices`. -/
structure GatewayState where
  matchedDevices : List (String × DeviceData)
deriving DecidableEq, Repr

/-- Source method `HAto163Gateway._discover_devices` (main.py lines
83–108): when the `try` body produces a fresh table it is installed
(`self.matched_devices = new_matched_devices`, line 103) and the method
returns whether it is nonempty; when the body raises, the `except` handler
(lines 106–108) logs and returns `False`, leaving `self.matched_devices`
untouched. -/
def discoverDevices (st : GatewayState) (devs : List DeviceCfg)
    (fetch : FetchResult) (timedOut : Bool) : GatewayState × Bool :=
  match tryDiscoverBody devs fetch timedOut with
  | .ok nd => ({ st with matchedDevices := nd }, !nd.isEmpty)
  | .exc => (st, false)

/-! ## Numeral extraction (`re.search(r'[-+]?\d*\.\d+|\d+', state)`,
main.py line 144)

The pattern has no useful backtracking: after the optional sign the greedy
`\d*` stops exactly at the first non-digit, and shrinking it can never make
the next character a dot.  So the leftmost match is computed by scanning
start positions left to right, trying the decimal alternative first and the
integer alternative second at each position. -/

/-- The first alternative `[-+]?\d*\.\d+` anchored at the start of `cs`:
the matched characters, or `none`. -/
def matchDecimalAt (cs : List Char) : Option (List Char) :=
  let sr : List Char × List Char :=
    match cs with
    | c :: t => if c == '-' || c == '+' then ([c], t) else ([], cs)
    | [] => ([], [])
  let ds := sr.2.takeWhile Char.isDigit
  match sr.2.drop ds.length with
  | '.' :: rest2 =>
    let ds2 := rest2.takeWhile Char.isDigit
    if ds2.isEmpty then none else some (sr.1 ++ ds ++ '.' :: ds2)
  | _ => none

/-- The second alternative `\d+` anchored at the start of `cs`. -/
def matchIntAt (cs : List Char) : Option (List Char) :=
  let ds := cs.takeWhile Char.isDigit
  if ds.isEmpty then none else some ds

/-- Source call `re.search`: leftmost match, decimal alternative preferred. -/
def searchNumeralL : List Char → Option (List Char)
  | [] => none
  | c :: t =>
    match matchDecimalAt (c :: t) with
    | some m => some m
    | none =>
      match matchIntAt (c :: t) with
      | some m => some m
      | none => searchNumeralL t

/-- Decimal digit string to `ℕ`. -/
def digitsVal (ds : List Char) : ℕ :=
  ds.foldl (fun a c => 10 * a + (c.toNat - 48)) 0

/-- Python `float(m)` for an unsigned matched numeral `m` (`\d*\.\d+` or `\d+`):
its exact decimal value as a rational. -/
def numeralAbs (t : List Char) : ℚ :=
  let ip := t.takeWhile Char.isDigit
  match t.drop ip.length with
  | '.' :: frac => (digitsVal ip : ℚ) + (digitsVal frac : ℚ) / ((10 : ℚ) ^ frac.length)
  | _ => (digitsVal ip : ℚ)

/-- Python `float(match.group())`: exact decimal value of a matched numeral. -/
def numeralToRat (cs : List Char) : ℚ :=
  match cs with
  | '-' :: t => -(numeralAbs t)
  | '+' :: t => numeralAbs t
  | _ => numeralAbs cs

/-- Python `float(re.search(...).group())` on a state string, `none` when the
pattern does not match. -/
def searchNumeral (st : String) : Option ℚ :=
  (searchNumeralL st.toList).map numeralToRat

/-! ## Value collection (`_get_entity_value`, main.py lines 110–160) -/

/-- A value `_get_entity_value` returns: a Python `int` (the fixed on/off/
trip codes) or a `float` (extracted numeral). -/
inductive EValue where
  | i (n : ℤ)
  | f (q : ℚ)
deriving DecidableEq, Repr

/-- Numeric content of a collected value. -/
def EValue.toRat : EValue → ℚ
  | .i n => (n : ℚ)
  | .f q => q

/-- One polling attempt's outcome: a 200 response with a state string, or a
transport failure / non-200 status (both of which the loop retries). -/
inductive PollResp where
  | ok (state : String)
  | err
deriving DecidableEq, Repr

/-- The body of `_get_entity_value` after a 200 response with a meaningful
state (lines 129–149): the switch/socket/breaker block falls through to the
binary-sensor check and then to numeral extraction when none of its arms
hit; `none` is the `return None` of the unparseable branch. -/
def parseMeaningfulState (deviceType entityId state : String) :
    Option EValue :=
  let sw : Option EValue :=
    if deviceType == "switch" || deviceType == "socket" ||
        deviceType == "breaker" then
      if state == "on" then some (.i 1)
      else if state == "off" then some (.i 0)
      else if state == "trip" && deviceType == "breaker" then some (.i 2)
      else none
    else none
  match sw with
  | some v => some v
  | none =>
    if deviceType == "sensor" && sStarts entityId "binary_sensor." then
      some (.i (if state == "on" then 1 else 0))
    else
      match searchNumeral state with
      | some q => some (.f q)
      | none => none

/-- Source method `_get_entity_value`: its retry loop over a finite sequence of attempt
outcomes (the per-entity timeout bounds the number of attempts; exhausting
them is the `return None` of line 156).  A 200 response whose state is
`"unknown"`, `"unavailable"` or `""` is retried (lines 125–127); a transport
error or non-200 status is retried; a meaningful state is parsed and the
result returned at once. -/
def getEntityValue (deviceType entityId : String) :
    List PollResp → Option EValue
  | [] => none
  | r :: rest =>
    match r with
    | .err => getEntityValue deviceType entityId rest
    | .ok st =>
      if st == "unknown" || st == "unavailable" || st == "" then
        getEntityValue deviceType entityId rest
      else
        parseMeaningfulState deviceType entityId st

/-! ## Conversion (`_collect_device_data`, main.py lines 172–218) -/

/-- Association lookup in the parsed conversion-factor dict. -/
def lookupQ (l : List (String × ℚ)) (k : String) : Option ℚ :=
  match l with
  | [] => none
  | (k0, v0) :: t => if k0 == k then some v0 else lookupQ t k

/-- Source expression `conversion_factors.get(prop, 1.0)` (line 200). -/
def factorOf (fs : List (String × ℚ)) (p : String) : ℚ :=
  (lookupQ fs p).getD 1

/-- Python `round(x, n)` on the exact decimal values the claims use (none of
which are ties): the scaled value rounded to the nearest integer, divided
back. -/
def roundTo (q : ℚ) (n : ℕ) : ℚ :=
  ((round (q * (10 : ℚ) ^ n) : ℤ) : ℚ) / (10 : ℚ) ^ n

/-- The one-decimal property list of line 206. -/
def oneDecimalProps : List String :=
  ["voltage", "temp", "hum", "frequency", "co2", "pm2_5", "pm10", "tvoc",
   "noise"]

/-- The per-property conversion of `_collect_device_data` (lines 193–211):
`"state"` is stored unscaled and unrounded; every other property is
multiplied by its factor (default 1.0) and rounded to 3 decimals for
current/active power, 1 decimal for the listed measured quantities, 4
decimals for energy, and left unrounded otherwise. -/
def convertValue (p : String) (v : ℚ) (fs : List (String × ℚ)) : ℚ :=
  if p == "state" then v
  else
    let cv := v * factorOf fs p
    if p == "current" || p == "active_power" then roundTo cv 3
    else if oneDecimalProps.contains p then roundTo cv 1
    else if p == "energy" then roundTo cv 4
    else cv

/-- The collection loop of `_collect_device_data` (lines 191–216): each
matched (property, entity) pair contributes a converted value when
collection succeeds and is omitted from `params` when it returns `None`.
`valueOf` abstracts the `_get_entity_value` call per entity id. -/
def collectParams (entities : List (String × String))
    (fs : List (String × ℚ)) (valueOf : String → Option EValue) :
    List (String × ℚ) :=
  entities.foldl (fun acc pe =>
    match valueOf pe.2 with
    | some v => acc ++ [(pe.1, convertValue pe.1 v.toRat fs)]
    | none => acc) []


/-! ## Structural lemmas about the matching pass -/

theorem optOr_none_right (a : Option α) : optOr a none = a := by
  cases a <;> rfl

theorem optOr_assoc (a b c : Option α) :
    optOr (optOr a b) c = optOr a (optOr b c) := by
  cases a <;> rfl

theorem lookupA_append (l m : List (String × String)) (k : String) :
    lookupA (l ++ m) k = optOr (lookupA l k) (lookupA m k) := by
  induction l with
  | nil => rfl
  | cons kv t ih =>
    obtain ⟨k0, v0⟩ := kv
    by_cases hk : (k0 == k) = true
    · simp [lookupA, hk, optOr]
    · simp [lookupA, hk, ih]

theorem saveMatch_cfg (dd : DeviceData) (r : Option String) (eid : String) :
    (saveMatch dd r eid).cfg = dd.cfg := by
  cases r with
  | none => rfl
  | some p =>
    simp only [saveMatch]
    split <;> rfl

theorem matchEnv_cfg (e : RawEntity) (dd : DeviceData) :
    (matchEnvironmentEntity e dd).cfg = dd.cfg :=
  saveMatch_cfg dd _ e.entityId

theorem matchElec_cfg (e : RawEntity) (dd : DeviceData) :
    (matchElectricEntity e dd).cfg = dd.cfg :=
  saveMatch_cfg dd _ e.entityId

theorem lookupA_saveMatch (dd : DeviceData) (r : Option String)
    (eid p : String) :
    lookupA (saveMatch dd r eid).entities p =
      optOr (lookupA dd.entities p)
        (if r = some p then some eid else none) := by
  cases r with
  | none => simp [saveMatch, optOr_none_right]
  | some q =>
    by_cases hq : q = p
    · subst hq
      cases hL : lookupA dd.entities q with
      | some x => simp [saveMatch, hL, optOr]
      | none => simp [saveMatch, hL, lookupA_append, lookupA, optOr]
    · have hne : ¬(some q = some p) := by simp [hq]
      cases hL : lookupA dd.entities q with
      | some x =>
        simp only [saveMatch, hL, Option.isSome_some, if_true, hne, if_false,
          optOr_none_right]
      | none =>
        simp only [saveMatch, hL, Option.isSome_none, Bool.false_eq_true,
          if_false, hne, optOr_none_right, lookupA_append]
        have : lookupA [(q, eid)] p = none := by
          simp [lookupA, hq]
        rw [this, optOr_none_right]

theorem env_elec_types_disjoint (t : String) :
    environmentTypes.contains t = true → electricTypes.contains t = false := by
  intro h
  have ht : t = "sensor" := by
    simpa [environmentTypes, List.contains] using h
  subst ht
  decide

theorem stepDevice_cfg (e : RawEntity) (dd : DeviceData) :
    (stepDevice e dd).cfg = dd.cfg := by
  simp only [stepDevice]
  split
  · rfl
  · split
    · split
      · rw [matchElec_cfg, matchEnv_cfg]
      · rw [matchEnv_cfg]
    · split
      · rw [matchElec_cfg]
      · rfl

theorem stepDevice_eq (e : RawEntity) (dd : DeviceData) :
    stepDevice e dd = saveMatch dd (stepResolvedProp dd.cfg e) e.entityId := by
  simp only [stepDevice, stepResolvedProp]
  by_cases h0 : (e.entityId == "") = true
  · simp [h0, saveMatch]
  · simp only [h0, Bool.false_eq_true, if_false]
    by_cases h1 : (sStartsAny e.entityId ["sensor.", "binary_sensor."] &&
        environmentTypes.contains dd.cfg.type) = true
    · have hc1 : environmentTypes.contains dd.cfg.type = true :=
        (Bool.and_eq_true _ _).mp h1 |>.2
      have hc2 : electricTypes.contains dd.cfg.type = false :=
        env_elec_types_disjoint _ hc1
      simp only [h1, if_true, matchEnv_cfg, matchEnvironmentEntity,
        saveMatch_cfg, hc2, Bool.and_false, Bool.false_eq_true, if_false]
    · simp only [h1, Bool.false_eq_true, if_false]
      by_cases h2 : (sStartsAny e.entityId ["switch.", "sensor."] &&
          electricTypes.contains dd.cfg.type) = true
      · simp only [h2, if_true, matchElectricEntity]
      · simp only [h2, Bool.false_eq_true, if_false, saveMatch]

theorem foldStep_lookup (es : List RawEntity) (dd : DeviceData) (p : String) :
    lookupA ((es.foldl (fun d e => stepDevice e d) dd)).entities p =
      optOr (lookupA dd.entities p)
        ((es.find? (fun e => stepResolvedProp dd.cfg e == some p)).map
          (fun e => e.entityId)) := by
  induction es generalizing dd with
  | nil => simp [optOr_none_right]
  | cons e es ih =>
    simp only [List.foldl_cons]
    rw [ih (stepDevice e dd), stepDevice_cfg, stepDevice_eq,
      lookupA_saveMatch]
    by_cases hpred : stepResolvedProp dd.cfg e = some p
    · simp only [List.find?_cons, hpred, optOr, beq_self_eq_true,
        if_pos rfl]
      cases lookupA dd.entities p <;> rfl
    · have hb : (stepResolvedProp dd.cfg e == some p) = false := by
        simpa using hpred
      simp only [List.find?_cons, hpred, hb, if_neg hpred, if_false,
        optOr_none_right]

theorem map_pair_eta (l : List (String × DeviceData)) :
    l.map (fun kv => (kv.1, kv.2)) = l := by
  induction l with
  | nil => rfl
  | cons kv t ih => simp [ih]

theorem processSingleEntity_map (e : RawEntity)
    (tbl : List (String × DeviceData)) :
    processSingleEntity e tbl = tbl.map (fun kv => (kv.1, stepDevice e kv.2)) := by
  by_cases h0 : (e.entityId == "") = true
  · simp only [processSingleEntity, stepDevice, h0, if_true]
    rw [map_pair_eta]
  · by_cases hg1 : sStartsAny e.entityId ["sensor.", "binary_sensor."] = true
    · by_cases hg2 : sStartsAny e.entityId ["switch.", "sensor."] = true
      · simp only [processSingleEntity, stepDevice, h0, Bool.false_eq_true,
          if_false, hg1, hg2, if_true, Bool.true_and, List.map_map]
        apply List.map_congr_left
        intro kv _
        by_cases hc1 : kv.2.cfg.type ∈ environmentTypes <;>
          by_cases hc2 : kv.2.cfg.type ∈ electricTypes <;>
            simp [Function.comp, hc1, hc2, matchEnv_cfg]
      · simp only [processSingleEntity, stepDevice, h0, Bool.false_eq_true,
          if_false, hg1, hg2, if_true, Bool.true_and, Bool.false_and]
        apply List.map_congr_left
        intro kv _
        by_cases hc1 : kv.2.cfg.type ∈ environmentTypes
        · simp [hc1]
        · simp [hc1]
    · by_cases hg2 : sStartsAny e.entityId ["switch.", "sensor."] = true
      · simp only [processSingleEntity, stepDevice, h0, Bool.false_eq_true,
          if_false, hg1, hg2, if_true, Bool.true_and, Bool.false_and]
        apply List.map_congr_left
        intro kv _
        by_cases hc2 : kv.2.cfg.type ∈ electricTypes
        · simp [hc2]
        · simp [hc2]
      · simp only [processSingleEntity, stepDevice, h0, Bool.false_eq_true,
          if_false, hg1, hg2, Bool.false_and]
        rw [map_pair_eta]

theorem foldProcess_map (ents : List RawEntity)
    (tbl : List (String × DeviceData)) :
    ents.foldl (fun t e => processSingleEntity e t) tbl =
      tbl.map (fun kv =>
        (kv.1, ents.foldl (fun dd e => stepDevice e dd) kv.2)) := by
  induction ents generalizing tbl with
  | nil =>
    simp only [List.foldl_nil]
    exact (map_pair_eta tbl).symm
  | cons e es ih =>
    simp only [List.foldl_cons]
    rw [ih, processSingleEntity_map, List.map_map]
    rfl

/-! ## Concrete configurations and entities used as claim instances -/

/-- An environment-sensor device whose supported-property set is `{hum}`. -/
def devEnvHum : DeviceCfg := ⟨"env1", "sensor", "sensor.room1_", ["hum"]⟩

/-- An environment-sensor device supporting `{temp}`. -/
def devEnvTemp : DeviceCfg := ⟨"env2", "sensor", "sensor.room1_", ["temp"]⟩

/-- Two environment-sensor devices sharing one prefix. -/
def devEnvA : DeviceCfg := ⟨"envA", "sensor", "sensor.room1_", ["temp", "hum"]⟩

/-- Second device of the shared-prefix pair. -/
def devEnvB : DeviceCfg := ⟨"envB", "sensor", "sensor.room1_", ["temp"]⟩

/-- A switch device whose declared prefix carries no domain qualifier. -/
def devSwRelay : DeviceCfg := ⟨"sw1", "switch", "relay_1", ["state"]⟩

/-- A temperature entity under the environment devices' prefix. -/
def entRoomTemp : RawEntity := ⟨"sensor.room1_temperature", "", ""⟩

/-- A units-only entity: trailing `_unit` local-name suffix. -/
def entTempUnit : RawEntity := ⟨"sensor.room1_temperature_unit", "", ""⟩

/-- A units-only entity: embedded `_unit_` local-name infix. -/
def entCo2Unit : RawEntity := ⟨"sensor.room1_co2_unit_a", "", ""⟩

/-- A switch entity whose id contains, but does not start with, the relay
device's declared prefix. -/
def entRelay : RawEntity := ⟨"switch.my_relay_1", "", ""⟩

/-! ## Claim C1 — supported-properties gate -/

/-- Replace the (never consulted) supported-property set of a device's
configuration. -/
def withSupported (dd : DeviceData) (s : List String) : DeviceData :=
  { dd with cfg := { dd.cfg with supported := s } }

theorem saveMatch_entities (c1 c2 : DeviceCfg)
    (ents : List (String × String)) (r : Option String) (eid : String) :
    (saveMatch ⟨c1, ents⟩ r eid).entities =
      (saveMatch ⟨c2, ents⟩ r eid).entities := by
  cases r with
  | none => rfl
  | some p => by_cases h : (lookupA ents p).isSome <;> simp [saveMatch, h]

/-- C1, counterexample.  The claim says a resolved property absent from the
device's `supportedProperties` yields no entry; on `devEnvHum`
(supported = `{hum}`) the entity `sensor.room1_temperature` resolves to
`temp`, which is recorded even though `temp` is not supported. -/
theorem C1_counterexample :
    matchEntitiesToDevices [devEnvHum] [entRoomTemp] =
      [("env1", ⟨devEnvHum, [("temp", "sensor.room1_temperature")]⟩)] ∧
    devEnvHum.supported.contains "temp" = false := by
  constructor
  · decide
  · decide

/-- C1, amended: no supported-properties gate exists — both matchers record
a resolved property regardless of the device's supported-property set; the
resulting entity map is invariant under arbitrary changes of that set. -/
theorem C1_no_supported_gate :
    ∀ (e : RawEntity) (dd : DeviceData) (s : List String),
      (matchEnvironmentEntity e (withSupported dd s)).entities =
        (matchEnvironmentEntity e dd).entities ∧
      (matchElectricEntity e (withSupported dd s)).entities =
        (matchElectricEntity e dd).entities := by
  intro e dd s
  obtain ⟨cfg, ents⟩ := dd
  have h1 : envResolvedProp { cfg with supported := s } e =
      envResolvedProp cfg e := rfl
  have h2 : elecResolvedProp { cfg with supported := s } e =
      elecResolvedProp cfg e := rfl
  constructor
  · simp only [matchEnvironmentEntity, withSupported, h1]
    exact saveMatch_entities _ _ _ _ _
  · simp only [matchElectricEntity, withSupported, h2]
    exact saveMatch_entities _ _ _ _ _

/-! ## Claim C2 — failed pass and the previous table -/

/-- C2: a failed discovery pass leaves the previously built MatchTable in
effect unchanged — the failure surfaces only as a `False` result, never as
clearing or replacing the table.  In this source every `_discover_devices`
call fails before the entity fetch can even begin: the two-argument
constructor call (main.py lines 87–90) cannot satisfy the three required
parameters of `HADiscovery.__init__` (ha_discovery.py line 88), so the
`try` body raises `TypeError` and the `except` handler returns `False`
without reassigning `self.matched_devices`.  The installing assignment of
line 103 (and with it `discover()`'s empty-table failure returns) is
unreachable, so every pass — the claimed fetch-retry and deadline failures
included — retains the previous table. -/
theorem C2_failed_pass_retains_table :
    ∀ (st : GatewayState) (devs : List DeviceCfg) (f : FetchResult)
      (t : Bool),
      tryDiscoverBody devs f t = PyResult.exc ∧
      discoverDevices st devs f t = (st, false) := by
  intro st devs f t
  exact ⟨rfl, rfl⟩

/-! ## Claim C4 — units-only entities -/

/-- C4, counterexample.  The claim says an entity whose local name is
exactly `<prefix>_temperature_unit` is never matched; the code matches it to
`temp` (there is no unit-marker exclusion anywhere in the matcher). -/
theorem C4_counterexample :
    matchEntitiesToDevices [devEnvTemp] [entTempUnit] =
      [("env2", ⟨devEnvTemp,
        [("temp", "sensor.room1_temperature_unit")]⟩)] := by
  decide

/-- C4, amended: no units-only exclusion exists — an entity with a trailing
`_unit` suffix or an embedded `_unit_` infix in its local name runs the
normal property resolution and can be matched (here to `temp` and `co2`
respectively). -/
theorem C4_units_not_excluded :
    matchEnvironmentEntity entTempUnit ⟨devEnvTemp, []⟩ =
      ⟨devEnvTemp, [("temp", "sensor.room1_temperature_unit")]⟩ ∧
    matchEnvironmentEntity entCo2Unit ⟨devEnvTemp, []⟩ =
      ⟨devEnvTemp, [("co2", "sensor.room1_co2_unit_a")]⟩ := by
  constructor
  · decide
  · decide

/-! ## Claim C5 — cross-device exclusivity -/

/-- C5, counterexample.  The claim says an entity claimed by the first
device in evaluation order appears in no other device's map; two devices
sharing the prefix both record `sensor.room1_temperature`. -/
theorem C5_counterexample :
    matchEntitiesToDevices [devEnvA, devEnvB] [entRoomTemp] =
      [("envA", ⟨devEnvA, [("temp", "sensor.room1_temperature")]⟩),
       ("envB", ⟨devEnvB, [("temp", "sensor.room1_temperature")]⟩)] := by
  decide

/-- C5, amended: entities are not exclusively claimed across devices — every
device's final container is computed independently from the full entity
list (the table is a per-device map of the same fold), so the same entity
id may appear in several devices' maps; uniqueness holds only per property
within one device. -/
theorem C5_devices_match_independently :
    ∀ (devs : List DeviceCfg) (ents : List RawEntity),
      matchEntitiesToDevices devs ents =
        (initTable devs).map (fun kv =>
          (kv.1, ents.foldl (fun dd e => stepDevice e dd) kv.2)) := by
  intro devs ents
  exact foldProcess_map ents (initTable devs)

/-! ## Claim C6 — per-device first-match-wins -/

/-- C6: within one device's entity map each canonical property holds the id
of the *first* entity in evaluation order that resolves to it (given the
map's previous content takes precedence); later entities resolving to an
already-filled property leave the entry unchanged. -/
theorem C6_first_entity_fills_property :
    ∀ (dd : DeviceData) (es : List RawEntity) (p : String),
      lookupA ((es.foldl (fun d e => stepDevice e d) dd)).entities p =
        optOr (lookupA dd.entities p)
          ((es.find? (fun e => stepResolvedProp dd.cfg e == some p)).map
            (fun e => e.entityId)) :=
  fun dd es p => foldStep_lookup es dd p

/-! ## Claim C3 — prefix normalization

The following `spec...` definitions follow the specification's words (spec
§4.2, §4.3 preconditions), for comparison against the source's behaviour. -/

/-- Spec-described PrefixNormalizer for environment-sensor devices: a
declared prefix beginning with the sensor-domain or binary-sensor-domain
qualifier has that qualifier stripped. -/
def specNormalizeSensorPfx (p : String) : String :=
  if sStarts p "sensor." then ⟨p.toList.drop 7⟩
  else if sStarts p "binary_sensor." then ⟨p.toList.drop 14⟩
  else p

/-- Local-name portion of an entity id: the text after the first dot. -/
def localNameOf (eid : String) : String :=
  ⟨(eid.toList.dropWhile (fun c => !(c == '.'))).drop 1⟩

/-- Spec-described acceptance test for environment-sensor devices: the
normalized prefix is searched in the local-name portion only. -/
def specEnvAccepts (p eid : String) : Bool :=
  sContains (localNameOf eid) (specNormalizeSensorPfx p)

/-- Spec-described acceptance test for actuator devices: the prefix is used
unmodified with exact-prefix semantics against the full identifier. -/
def specElecAccepts (p eid : String) : Bool :=
  sStarts eid p

/-- C3, counterexample.  An input the spec-described environment test
accepts (qualifier stripped, searched in the local name) that the code
rejects and leaves without effect; and an input the spec-described actuator
test rejects (not an exact prefix of the full id) that the code matches and
records. -/
theorem C3_counterexample :
    specEnvAccepts "sensor.abc" "binary_sensor.xyz_abc_temp" = true ∧
    matchEnvironmentEntity ⟨"binary_sensor.xyz_abc_temp", "", ""⟩
        ⟨⟨"e1", "sensor", "sensor.abc", ["temp"]⟩, []⟩ =
      ⟨⟨"e1", "sensor", "sensor.abc", ["temp"]⟩, []⟩ ∧
    specElecAccepts "relay_1" "switch.my_relay_1" = false ∧
    matchElectricEntity entRelay ⟨devSwRelay, []⟩ =
      ⟨devSwRelay, [("state", "switch.my_relay_1")]⟩ := by
  refine ⟨?_, ?_, ?_, ?_⟩ <;> decide

/-- C3, amended: for both device kinds the declared prefix is used
unmodified (no qualifier stripping) and tested as a *substring of the full
entity identifier*: when the raw prefix is not contained in the id the pair
has no effect, and containment anywhere suffices — shown by an environment
match reached across the domain boundary and an electric match whose prefix
is not a leading prefix of the id. -/
theorem C3_raw_substring_matching :
    (∀ (e : RawEntity) (dd : DeviceData),
      sContains e.entityId dd.cfg.haEntityPfx = false →
        matchEnvironmentEntity e dd = dd ∧ matchElectricEntity e dd = dd) ∧
    matchEnvironmentEntity ⟨"binary_sensor.room1_temperature", "", ""⟩
        ⟨⟨"e3", "sensor", "room1_", ["temp"]⟩, []⟩ =
      ⟨⟨"e3", "sensor", "room1_", ["temp"]⟩,
        [("temp", "binary_sensor.room1_temperature")]⟩ ∧
    matchElectricEntity ⟨"switch.my_relay_1", "humidity", ""⟩
        ⟨devSwRelay, []⟩ =
      ⟨devSwRelay, [("state", "switch.my_relay_1")]⟩ := by
  refine ⟨?_, ?_, ?_⟩
  · intro e dd h
    constructor
    · simp [matchEnvironmentEntity, envResolvedProp, h, saveMatch]
    · simp [matchElectricEntity, elecResolvedProp, h, saveMatch]
  · decide
  · decide

/-- Witness for `C3_raw_substring_matching` at a concrete non-containing
pair. -/
theorem C3_witness :
    sContains "sensor.other" "sensor.room1_" = false ∧
    matchEnvironmentEntity ⟨"sensor.other", "", ""⟩ ⟨devEnvHum, []⟩ =
      ⟨devEnvHum, []⟩ ∧
    matchElectricEntity ⟨"sensor.other", "", ""⟩ ⟨devEnvHum, []⟩ =
      ⟨devEnvHum, []⟩ := by
  have h : sContains (RawEntity.mk "sensor.other" "" "").entityId
      (DeviceData.mk devEnvHum []).cfg.haEntityPfx = false := by decide
  exact ⟨h, (C3_raw_substring_matching.1 _ _ h).1,
    (C3_raw_substring_matching.1 _ _ h).2⟩

/-! ## Claim C7 — device-class priority -/

/-- C7, counterexample.  The claim quantifies over every entity offered to a
device; a switch-domain entity offered to an electric device resolves to
`state` even though its deviceClass `humidity` is a vocabulary key mapped to
`hum` — the device-class mapping is not used there. -/
theorem C7_counterexample :
    lookupA PROPERTY_MAPPING "humidity" = some "hum" ∧
    matchElectricEntity ⟨"switch.relay_1", "humidity", ""⟩
        ⟨devSwRelay, []⟩ =
      ⟨devSwRelay, [("state", "switch.relay_1")]⟩ := by
  constructor
  · decide
  · decide

/-- C7, amended: the device-class mapping wins over name and friendly-name
tokens in environment matching and for sensor-domain entities in electric
matching; a switch-domain entity in electric matching always resolves to
`state`, its deviceClass ignored. -/
theorem C7_device_class_priority :
    ∀ (cfg : DeviceCfg) (e : RawEntity) (p : String),
      (sContains e.entityId cfg.haEntityPfx = true →
        lookupA PROPERTY_MAPPING (sLower e.deviceClass) = some p →
        envResolvedProp cfg e = some p) ∧
      (sContains e.entityId cfg.haEntityPfx = true →
        domainOf e.entityId = "sensor" →
        lookupA PROPERTY_MAPPING (sLower e.deviceClass) = some p →
        elecResolvedProp cfg e = some p) ∧
      (sContains e.entityId cfg.haEntityPfx = true →
        domainOf e.entityId = "switch" →
        elecResolvedProp cfg e = some "state") := by
  intro cfg e p
  refine ⟨?_, ?_, ?_⟩
  · intro hg hdc
    simp [envResolvedProp, hg, resolveEnvProp, hdc]
  · intro hg hdom hdc
    simp [elecResolvedProp, hg, resolveElecProp, hdom, hdc]
  · intro hg hdom
    simp [elecResolvedProp, hg, resolveElecProp, hdom]

/-- Witness for `C7_device_class_priority`: deviceClass `humidity` with a
CO2 token in the entity id resolves to `hum`, and a switch-domain entity
resolves to `state`. -/
theorem C7_witness :
    envResolvedProp devEnvHum ⟨"sensor.room1_co2", "humidity", ""⟩ =
      some "hum" ∧
    elecResolvedProp devSwRelay ⟨"switch.relay_1", "", ""⟩ =
      some "state" :=
  ⟨(C7_device_class_priority devEnvHum ⟨"sensor.room1_co2", "humidity", ""⟩
      "hum").1 (by decide) (by decide),
   (C7_device_class_priority devSwRelay ⟨"switch.relay_1", "", ""⟩
      "state").2.2 (by decide) (by decide)⟩

/-! ## Claim C8 — value collection -/

theorem searchNumeral_255C : searchNumeral "25.5 C" = some (51 / 2 : ℚ) := by
  have h : searchNumeralL "25.5 C".toList = some ['2', '5', '.', '5'] := by
    decide
  have h2 : numeralToRat ['2', '5', '.', '5'] = 51 / 2 := by
    show (digitsVal ['2', '5'] : ℚ) +
        (digitsVal ['5'] : ℚ) / ((10 : ℚ) ^ (1 : ℕ)) = 51 / 2
    rw [show digitsVal ['2', '5'] = 25 from by decide,
      show digitsVal ['5'] = 5 from by decide]
    norm_num
  rw [searchNumeral, h, Option.map_some', h2]

/-- C8, counterexample.  The claim says actuator-kind state text denoting
on/off/trip maps to the codes {0,1,2}; for `switch` and `socket` kinds the
state `trip` instead falls through to numeral extraction and yields no value
(the trip code 2 exists only for `breaker`). -/
theorem C8_counterexample :
    getEntityValue "socket" "switch.plug_1" [PollResp.ok "trip"] = none ∧
    getEntityValue "switch" "switch.plug_1" [PollResp.ok "trip"] = none := by
  constructor
  · decide
  · decide

/-- C8, amended: collection behaviour of `_get_entity_value` — meaningless
states (`unknown`/`unavailable`/empty) are retried, on/off map to 1/0 for
every actuator kind, `trip` maps to 2 for `breaker` only and is unparseable
for `switch`/`socket`, the first embedded numeral is extracted as a float
(`"25.5 C"` gives 25.5), a numeral-free meaningful state yields no value
(never zero), and a property whose collection returns no value is omitted
from the payload. -/
theorem C8_collection_behaviour :
    ∀ (dt eid st : String) (rest : List PollResp)
      (fs : List (String × ℚ)),
      (getEntityValue dt eid (PollResp.ok "unknown" :: rest) =
        getEntityValue dt eid rest) ∧
      (getEntityValue dt eid (PollResp.ok "unavailable" :: rest) =
        getEntityValue dt eid rest) ∧
      (getEntityValue dt eid (PollResp.ok "" :: rest) =
        getEntityValue dt eid rest) ∧
      (dt = "switch" ∨ dt = "socket" ∨ dt = "breaker" →
        parseMeaningfulState dt eid "on" = some (EValue.i 1) ∧
        parseMeaningfulState dt eid "off" = some (EValue.i 0)) ∧
      (parseMeaningfulState "breaker" eid "trip" = some (EValue.i 2)) ∧
      (dt = "switch" ∨ dt = "socket" →
        parseMeaningfulState dt eid "trip" = none) ∧
      (getEntityValue "sensor" "sensor.x" [PollResp.ok "25.5 C"] =
        some (EValue.f (51 / 2))) ∧
      (searchNumeral st = none →
        (st == "unknown" || st == "unavailable" || st == "") = false →
        dt = "sensor" → sStarts eid "binary_sensor." = false →
        getEntityValue dt eid [PollResp.ok st] = none) ∧
      (collectParams [("temp", eid)] fs (fun _ => none) = []) := by
  intro dt eid st rest fs
  refine ⟨rfl, rfl, rfl, ?_, rfl, ?_, ?_, ?_, rfl⟩
  · rintro (rfl | rfl | rfl) <;> exact ⟨rfl, rfl⟩
  · rintro (rfl | rfl) <;> rfl
  · show (match searchNumeral "25.5 C" with
      | some q => some (EValue.f q)
      | none => none) = some (EValue.f (51 / 2))
    rw [searchNumeral_255C]
  · intro h1 h2 _ h4
    subst dt
    simp only [getEntityValue, h2, Bool.false_eq_true, if_false]
    simp [parseMeaningfulState, h1, h4]

/-- Witness for `C8_collection_behaviour` at concrete actuator and sensor
inputs. -/
theorem C8_witness :
    parseMeaningfulState "switch" "switch.a" "on" = some (EValue.i 1) ∧
    parseMeaningfulState "socket" "switch.a" "trip" = none ∧
    getEntityValue "sensor" "sensor.y" [PollResp.ok "abc"] = none := by
  refine ⟨((C8_collection_behaviour "switch" "switch.a" "abc" [] []
      ).2.2.2.1 (Or.inl rfl)).1,
    (C8_collection_behaviour "socket" "switch.a" "abc" [] []
      ).2.2.2.2.2.1 (Or.inr rfl),
    (C8_collection_behaviour "sensor" "sensor.y" "abc" [] []
      ).2.2.2.2.2.2.2.1 ?_ ?_ rfl ?_⟩
  · rw [searchNumeral, show searchNumeralL "abc".toList = none from by decide]
    rfl
  · decide
  · decide

/-! ## Claim C9 — conversion and rounding -/

/-- C9: the `state` property is never scaled or rounded; every other
property is scaled by its factor (1.0 when absent) and rounded to 3
decimals for current/active power, 4 for energy, 1 for the listed measured
quantities; raw 12.3456 with factor 10 gives 123.456 for a power-class
property. -/
theorem C9_conversion_policy :
    ∀ (p : String) (v : ℚ) (fs : List (String × ℚ)),
      convertValue "state" v fs = v ∧
      (p = "current" ∨ p = "active_power" →
        convertValue p v fs = roundTo (v * factorOf fs p) 3) ∧
      convertValue "energy" v fs = roundTo (v * factorOf fs "energy") 4 ∧
      (p ∈ oneDecimalProps →
        convertValue p v fs = roundTo (v * factorOf fs p) 1) ∧
      factorOf [] p = 1 ∧
      convertValue "active_power" (123456 / 10000)
        [("active_power", 10)] = 123456 / 1000 := by
  intro p v fs
  refine ⟨rfl, ?_, rfl, ?_, rfl, ?_⟩
  · rintro (rfl | rfl) <;> rfl
  · intro hp
    fin_cases hp <;> rfl
  · show roundTo ((123456 / 10000 : ℚ) * 10) 3 = 123456 / 1000
    rw [roundTo]
    norm_num [round_eq]

/-- Witness for `C9_conversion_policy` at the one-decimal property
`temp`. -/
theorem C9_witness :
    convertValue "temp" (214 / 10) [] =
      roundTo ((214 / 10) * factorOf [] "temp") 1 :=
  (C9_conversion_policy "temp" (214 / 10) []).2.2.2.1 (by decide)

/-! ## Claim C10 — binary environment entities -/

/-- C10: for an environment-sensor device (`device_type == "sensor"`), a
matched `binary_sensor.` entity with a meaningful state always yields the
integer 1 for state `"on"` and 0 for every other state string — numeral
extraction and the unparseable branch are unreachable. -/
theorem C10_binary_sensor_binary_value :
    ∀ (eid st : String) (rest : List PollResp),
      sStarts eid "binary_sensor." = true →
      (st == "unknown" || st == "unavailable" || st == "") = false →
      getEntityValue "sensor" eid (PollResp.ok st :: rest) =
        some (EValue.i (if st == "on" then 1 else 0)) := by
  intro eid st rest hb hm
  simp only [getEntityValue, hm, Bool.false_eq_true, if_false]
  simp [parseMeaningfulState, hb]

/-- Witness for `C10_binary_sensor_binary_value`: a numeric-looking state on
a binary-sensor entity still collects as 0, not as an extracted numeral. -/
theorem C10_witness :
    getEntityValue "sensor" "binary_sensor.door" [PollResp.ok "25.5"] =
      some (EValue.i 0) := by
  rw [C10_binary_sensor_binary_value "binary_sensor.door" "25.5" []
    (by decide) (by decide)]
  decide

end Gateway
